import Mathlib

/-!
Shallow embedding of src/native/evdev-java.c (transplier/evdev-java).

The file defines five JNI entry points, each of which opens a device path
read-only, issues a single ioctl, closes the descriptor and returns a
status (or, for the version query, the version value).  We model the
kernel as an oracle `Env`: the outcome of `open(2)` on the given path,
the return value of the single ioctl the call issues, and the data the
kernel would write through that ioctl.  Each operation returns the
caller-visible result, the final contents of the caller's output array,
and a trace of the descriptor-related syscalls it performed.
-/

namespace Evdev

/-- One descriptor-related syscall performed by a native call:
an `open` (with its result), an `ioctl` on a descriptor (recording the
request number `nr` and the byte length encoded in the request, per
Linux's input.h macros), or a `close`. -/
inductive Event where
  | openEv (res : Option Nat) : Event
  | ioctlEv (fd : Nat) (nr : Int) (len : Nat) : Event
  | closeEv (fd : Nat) : Event
deriving DecidableEq

/-- The kernel-side oracle for one native call: the result of
`open(path, O_RDONLY)` for each path (`some fd` when the returned
descriptor is nonnegative, `none` when open fails), the return value of
the one ioctl the call issues (0 = success, nonzero = failure), and the
data the kernel would write through each kind of ioctl request. -/
structure Env where
  openRes : String → Option Nat
  ioctlRet : Int
  idData : List Int
  versionVal : Int
  nameData : List Int
  bitData : List Int
  absData : List Int

/-- Result of a native call that fills a caller-supplied array:
the returned jboolean (1 = success, 0 = failure), the final contents of
the caller's array, and the syscall trace. -/
structure CallOut where
  ret : Int
  buf : List Int
  events : List Event
deriving DecidableEq

/-- Result of the version query, which has no output array. -/
structure VerOut where
  ret : Int
  events : List Event
deriving DecidableEq

/-- The kernel writing `data` at the start of the caller's buffer `buf`:
the write is clamped to the buffer's length, and slots past the written
region keep their previous contents. -/
def writeInto (buf data : List Int) : List Int :=
  data.take buf.length ++ buf.drop data.length

/-- Embedding of `Java_com_dgis_input_evdev_EventDevice_ioctlGetID`:
opens the path; on open failure returns 0 with the array untouched;
otherwise issues `ioctl(fd, EVIOCGID, id)` (8 bytes, 4 shorts), closes
the descriptor and returns 1 without inspecting the ioctl result. -/
def ioctlGetID (env : Env) (path : String) (out : List Int) : CallOut :=
  match env.openRes path with
  | none => ⟨0, out, [Event.openEv none]⟩
  | some fd =>
      ⟨1,
       if env.ioctlRet = 0 then writeInto out (env.idData.take 4) else out,
       [Event.openEv (some fd), Event.ioctlEv fd 2 8, Event.closeEv fd]⟩

/-- Embedding of `Java_com_dgis_input_evdev_EventDevice_ioctlGetEvdevVersion`:
opens the path; on open failure returns 0; otherwise issues
`ioctl(fd, EVIOCGVERSION, &version)`, sets the version to 0 when that
ioctl returns nonzero, closes the descriptor and returns the version. -/
def ioctlGetEvdevVersion (env : Env) (path : String) : VerOut :=
  match env.openRes path with
  | none => ⟨0, [Event.openEv none]⟩
  | some fd =>
      ⟨if env.ioctlRet = 0 then env.versionVal else 0,
       [Event.openEv (some fd), Event.ioctlEv fd 1 4, Event.closeEv fd]⟩

/-- Embedding of `Java_com_dgis_input_evdev_EventDevice_ioctlGetDeviceName`:
opens the path; on open failure returns 0 with the array untouched;
otherwise issues `ioctl(fd, EVIOCGNAME(GetArrayLength(name)), name_str)`
— the request length is the output array's capacity, and the kernel
writes at most that many bytes of the device's name — then closes the
descriptor and returns 1 without inspecting the ioctl result. -/
def ioctlGetDeviceName (env : Env) (path : String) (name : List Int) : CallOut :=
  match env.openRes path with
  | none => ⟨0, name, [Event.openEv none]⟩
  | some fd =>
      ⟨1,
       if env.ioctlRet = 0 then writeInto name (env.nameData.take name.length) else name,
       [Event.openEv (some fd), Event.ioctlEv fd 6 name.length, Event.closeEv fd]⟩

/-- Embedding of `Java_com_dgis_input_evdev_EventDevice_ioctlEVIOCGBIT`:
opens the path; on open failure returns 0 with the array untouched;
otherwise issues `ioctl(fd, EVIOCGBIT(start, stop), resp)` — `stop` is
the byte length encoded in the request, so the kernel writes at most
`stop` bytes — then closes the descriptor and returns 1 without
inspecting the ioctl result. -/
def ioctlEVIOCGBIT (env : Env) (path : String) (out : List Int)
    (start stop : Int) : CallOut :=
  match env.openRes path with
  | none => ⟨0, out, [Event.openEv none]⟩
  | some fd =>
      ⟨1,
       if env.ioctlRet = 0 then writeInto out (env.bitData.take stop.toNat) else out,
       [Event.openEv (some fd), Event.ioctlEv fd (32 + start) stop.toNat, Event.closeEv fd]⟩

/-- Embedding of `Java_com_dgis_input_evdev_EventDevice_ioctlEVIOCGABS`:
first checks `GetArrayLength(out) < 5` and returns 0 at once (before any
syscall) when the array is too short; otherwise opens the path, and on
open failure returns 0 with the array untouched; otherwise issues
`ioctl(fd, EVIOCGABS(axis), resp)` (20 bytes, 5 ints), closes the
descriptor and returns 1 without inspecting the ioctl result. -/
def ioctlEVIOCGABS (env : Env) (path : String) (out : List Int)
    (axis : Int) : CallOut :=
  if out.length < 5 then ⟨0, out, []⟩
  else
    match env.openRes path with
    | none => ⟨0, out, [Event.openEv none]⟩
    | some fd =>
        ⟨1,
         if env.ioctlRet = 0 then writeInto out (env.absData.take 5) else out,
         [Event.openEv (some fd), Event.ioctlEv fd (64 + axis) 20, Event.closeEv fd]⟩

/-- The descriptors still open after a trace of syscalls: each
successful `open` pushes its descriptor, each `close` removes it. -/
def fdsAfter (evs : List Event) : List Nat :=
  evs.foldl
    (fun acc e =>
      match e with
      | Event.openEv (some fd) => fd :: acc
      | Event.openEv none => acc
      | Event.ioctlEv _ _ _ => acc
      | Event.closeEv fd => acc.erase fd)
    []

/-- How many times descriptor `fd` is closed in a trace. -/
def closeCount (fd : Nat) (evs : List Event) : Nat :=
  (evs.filter (fun e =>
    match e with
    | Event.closeEv g => g == fd
    | _ => false)).length

/-- Modelled from the spec: the two-form `getDeviceName` contract the
spec describes — an optional explicit maximum length that, when
provided, takes precedence over the length inferred from the output
buffer's capacity.  (The native source has no such parameter; this
definition exists to compare the source against the spec's words.) -/
def getDeviceName_twoForm (env : Env) (path : String) (name : List Int)
    (maxLen : Option Nat) : CallOut :=
  match env.openRes path with
  | none => ⟨0, name, [Event.openEv none]⟩
  | some fd =>
      ⟨1,
       if env.ioctlRet = 0 then
         writeInto name (env.nameData.take (maxLen.getD name.length))
       else name,
       [Event.openEv (some fd), Event.ioctlEv fd 6 (maxLen.getD name.length),
        Event.closeEv fd]⟩

/-- A concrete device path used by witnesses. -/
def devPath : String := "/dev/input/event0"

/-- A concrete oracle where open yields descriptor 3 and the ioctl
succeeds. -/
def envOk : Env :=
  { openRes := fun _ => some 3
    ioctlRet := 0
    idData := [1, 2, 3, 4]
    versionVal := 65537
    nameData := [75, 101, 121, 98, 100]
    bitData := [9, 5]
    absData := [10, 0, 255, 1, 2] }

/-- Like `envOk` but the kernel reports protocol version 0. -/
def envVer0 : Env := { envOk with versionVal := 0 }

/-- Like `envOk` but the ioctl fails (returns -1). -/
def envIoctlFail : Env := { envOk with ioctlRet := -1 }

/-- Like `envOk` but open fails on every path. -/
def envOpenFail : Env := { envOk with openRes := fun _ => none }

/-- The kernel's clamped write never changes the buffer's length. -/
theorem writeInto_length (buf data : List Int) :
    (writeInto buf data).length = buf.length := by
  simp [writeInto]
  omega

/-- C1: past a successful open, getDeviceId, getDeviceName,
getCapabilityBitmap and (past its size check) getAbsAxisInfo return the
success sentinel 1 whatever the ioctl's return value is; only
getProtocolVersion inspects the ioctl's return value, mapping its
failure to the sentinel 0. -/
theorem success_ret_ignores_ioctl (env : Env) (path : String)
    (idBuf nameBuf bitBuf absBuf : List Int) (start stop axis : Int)
    (hopen : (env.openRes path).isSome = true) (habs : 5 ≤ absBuf.length) :
    (ioctlGetID env path idBuf).ret = 1 ∧
    (ioctlGetDeviceName env path nameBuf).ret = 1 ∧
    (ioctlEVIOCGBIT env path bitBuf start stop).ret = 1 ∧
    (ioctlEVIOCGABS env path absBuf axis).ret = 1 ∧
    (env.ioctlRet ≠ 0 → (ioctlGetEvdevVersion env path).ret = 0) := by
  obtain ⟨fd, hfd⟩ := Option.isSome_iff_exists.mp hopen
  have habs5 : ¬ absBuf.length < 5 := by omega
  refine ⟨?_, ?_, ?_, ?_, ?_⟩
  · simp [ioctlGetID, hfd]
  · simp [ioctlGetDeviceName, hfd]
  · simp [ioctlEVIOCGBIT, hfd]
  · simp [ioctlEVIOCGABS, habs5, hfd]
  · intro hne
    simp [ioctlGetEvdevVersion, hfd, hne]

/-- Closed instance of `success_ret_ignores_ioctl` at a concrete oracle
whose ioctl fails. -/
theorem success_ret_ignores_ioctl_w :
    (envIoctlFail.openRes devPath).isSome = true ∧
    5 ≤ ([0, 0, 0, 0, 0] : List Int).length ∧
    ((ioctlGetID envIoctlFail devPath [0]).ret = 1 ∧
     (ioctlGetDeviceName envIoctlFail devPath []).ret = 1 ∧
     (ioctlEVIOCGBIT envIoctlFail devPath [0] 0 0).ret = 1 ∧
     (ioctlEVIOCGABS envIoctlFail devPath [0, 0, 0, 0, 0] 1).ret = 1 ∧
     (envIoctlFail.ioctlRet ≠ 0 →
       (ioctlGetEvdevVersion envIoctlFail devPath).ret = 0)) :=
  ⟨by decide, by decide,
   success_ret_ignores_ioctl envIoctlFail devPath [0] [] [0] [0, 0, 0, 0, 0]
     0 0 1 (by decide) (by decide)⟩

/-- C2: getProtocolVersion returns 0 when open fails, returns 0 when the
get-version ioctl fails, and otherwise returns exactly the value the
kernel wrote through the ioctl. -/
theorem getEvdevVersion_contract (env : Env) (path : String) :
    (env.openRes path = none → (ioctlGetEvdevVersion env path).ret = 0) ∧
    (∀ fd, env.openRes path = some fd → env.ioctlRet ≠ 0 →
      (ioctlGetEvdevVersion env path).ret = 0) ∧
    (∀ fd, env.openRes path = some fd → env.ioctlRet = 0 →
      (ioctlGetEvdevVersion env path).ret = env.versionVal) := by
  refine ⟨fun h => ?_, fun fd h hne => ?_, fun fd h h0 => ?_⟩
  · simp [ioctlGetEvdevVersion, h]
  · simp [ioctlGetEvdevVersion, h, hne]
  · simp [ioctlGetEvdevVersion, h, h0]

/-- Closed instance of `getEvdevVersion_contract` on all three paths. -/
theorem getEvdevVersion_contract_w :
    envOpenFail.openRes devPath = none ∧
    envIoctlFail.ioctlRet ≠ 0 ∧
    envOk.ioctlRet = 0 ∧
    (ioctlGetEvdevVersion envOpenFail devPath).ret = 0 ∧
    (ioctlGetEvdevVersion envIoctlFail devPath).ret = 0 ∧
    (ioctlGetEvdevVersion envOk devPath).ret = envOk.versionVal :=
  ⟨rfl, by decide, rfl,
   (getEvdevVersion_contract envOpenFail devPath).1 rfl,
   (getEvdevVersion_contract envIoctlFail devPath).2.1 3 rfl (by decide),
   (getEvdevVersion_contract envOk devPath).2.2 3 rfl rfl⟩

/-- C3 counterexample: the native getDeviceName does not implement the
spec's explicit-length form.  At a concrete oracle and a 10-slot buffer,
the source call (which sizes the ioctl by the buffer's capacity alone)
differs from the spec's two-form contract with an explicit length 3:
the source writes 5 name bytes and issues a length-10 request, while the
explicit form would write 3 bytes and issue a length-3 request. -/
theorem getDeviceName_explicit_len_cex :
    ioctlGetDeviceName envOk devPath (List.replicate 10 0) ≠
      getDeviceName_twoForm envOk devPath (List.replicate 10 0) (some 3) := by
  decide

/-- C3 amended: getDeviceName supports a single form only — the maximum
name length is always the one inferred from the output buffer's
capacity (it coincides with the spec's two-form contract when no
explicit length is provided, and the ioctl request it issues is sized
to the buffer's capacity); no explicit length parameter exists. -/
theorem getDeviceName_single_form (env : Env) (path : String) (name : List Int) :
    ioctlGetDeviceName env path name = getDeviceName_twoForm env path name none ∧
    (∀ fd, env.openRes path = some fd →
      Event.ioctlEv fd 6 name.length ∈ (ioctlGetDeviceName env path name).events) := by
  constructor
  · rcases h : env.openRes path with _ | fd <;>
      simp [ioctlGetDeviceName, getDeviceName_twoForm, h]
  · intro fd h
    simp [ioctlGetDeviceName, h]

/-- Closed instance of `getDeviceName_single_form` at a concrete oracle. -/
theorem getDeviceName_single_form_w :
    envOk.openRes devPath = some 3 ∧
    Event.ioctlEv 3 6 2 ∈ (ioctlGetDeviceName envOk devPath [0, 0]).events :=
  ⟨rfl, (getDeviceName_single_form envOk devPath [0, 0]).2 3 rfl⟩

/-- C4: when open fails, every operation returns its failure sentinel
(0, standing for false, and the integer 0 for getProtocolVersion) and
the caller's output buffer is returned exactly as it was. -/
theorem open_failure_no_write (env : Env) (path : String)
    (idBuf nameBuf bitBuf absBuf : List Int) (start stop axis : Int)
    (h : env.openRes path = none) :
    ((ioctlGetID env path idBuf).ret = 0 ∧
     (ioctlGetID env path idBuf).buf = idBuf) ∧
    (ioctlGetEvdevVersion env path).ret = 0 ∧
    ((ioctlGetDeviceName env path nameBuf).ret = 0 ∧
     (ioctlGetDeviceName env path nameBuf).buf = nameBuf) ∧
    ((ioctlEVIOCGBIT env path bitBuf start stop).ret = 0 ∧
     (ioctlEVIOCGBIT env path bitBuf start stop).buf = bitBuf) ∧
    ((ioctlEVIOCGABS env path absBuf axis).ret = 0 ∧
     (ioctlEVIOCGABS env path absBuf axis).buf = absBuf) := by
  refine ⟨⟨?_, ?_⟩, ?_, ⟨?_, ?_⟩, ⟨?_, ?_⟩, ⟨?_, ?_⟩⟩ <;>
    first
      | simp [ioctlGetID, ioctlGetEvdevVersion, ioctlGetDeviceName,
          ioctlEVIOCGBIT, h]
      | (by_cases h5 : absBuf.length < 5 <;> simp [ioctlEVIOCGABS, h, h5])

/-- Closed instance of `open_failure_no_write` at a concrete oracle
whose open fails. -/
theorem open_failure_no_write_w :
    envOpenFail.openRes devPath = none ∧
    (ioctlGetID envOpenFail devPath [7]).ret = 0 ∧
    (ioctlGetID envOpenFail devPath [7]).buf = [7] ∧
    (ioctlEVIOCGABS envOpenFail devPath [1, 2] 0).buf = [1, 2] :=
  ⟨rfl,
   (open_failure_no_write envOpenFail devPath [7] [] [] [1, 2] 0 0 0 rfl).1.1,
   (open_failure_no_write envOpenFail devPath [7] [] [] [1, 2] 0 0 0 rfl).1.2,
   (open_failure_no_write envOpenFail devPath [7] [] [] [1, 2] 0 0 0 rfl).2.2.2.2.2⟩

/-- C6: getAbsAxisInfo with an output buffer of fewer than 5 slots
returns the failure sentinel at once, with the buffer untouched and an
empty syscall trace — no open, no ioctl, no close. -/
theorem absinfo_size_check (env : Env) (path : String) (out : List Int)
    (axis : Int) (h : out.length < 5) :
    ioctlEVIOCGABS env path out axis = ⟨0, out, []⟩ := by
  simp [ioctlEVIOCGABS, h]

/-- Closed instance of `absinfo_size_check`, at an oracle whose open
would succeed: the size check fires before any syscall. -/
theorem absinfo_size_check_w :
    ([1, 2, 3, 4] : List Int).length < 5 ∧
    ioctlEVIOCGABS envOk devPath [1, 2, 3, 4] 0 = ⟨0, [1, 2, 3, 4], []⟩ :=
  ⟨by decide, absinfo_size_check envOk devPath [1, 2, 3, 4] 0 (by decide)⟩

/-- C5: no operation returns with a descriptor it opened still open —
the set of live descriptors after each call's trace is empty — and when
open succeeds the descriptor is closed exactly once (for getAbsAxisInfo,
whenever the call got past its size check). -/
theorem fd_never_leaked (env : Env) (path : String)
    (idBuf nameBuf bitBuf absBuf : List Int) (start stop axis : Int) :
    fdsAfter (ioctlGetID env path idBuf).events = [] ∧
    fdsAfter (ioctlGetEvdevVersion env path).events = [] ∧
    fdsAfter (ioctlGetDeviceName env path nameBuf).events = [] ∧
    fdsAfter (ioctlEVIOCGBIT env path bitBuf start stop).events = [] ∧
    fdsAfter (ioctlEVIOCGABS env path absBuf axis).events = [] ∧
    (∀ fd, env.openRes path = some fd →
      closeCount fd (ioctlGetID env path idBuf).events = 1 ∧
      closeCount fd (ioctlGetEvdevVersion env path).events = 1 ∧
      closeCount fd (ioctlGetDeviceName env path nameBuf).events = 1 ∧
      closeCount fd (ioctlEVIOCGBIT env path bitBuf start stop).events = 1 ∧
      (5 ≤ absBuf.length →
        closeCount fd (ioctlEVIOCGABS env path absBuf axis).events = 1)) := by
  rcases h : env.openRes path with _ | fd
  · refine ⟨?_, ?_, ?_, ?_, ?_, ?_⟩
    · simp [ioctlGetID, h, fdsAfter]
    · simp [ioctlGetEvdevVersion, h, fdsAfter]
    · simp [ioctlGetDeviceName, h, fdsAfter]
    · simp [ioctlEVIOCGBIT, h, fdsAfter]
    · by_cases h5 : absBuf.length < 5 <;> simp [ioctlEVIOCGABS, h, h5, fdsAfter]
    · intro fd hfd
      exact absurd hfd (by simp)
  · refine ⟨?_, ?_, ?_, ?_, ?_, ?_⟩
    · simp [ioctlGetID, h, fdsAfter]
    · simp [ioctlGetEvdevVersion, h, fdsAfter]
    · simp [ioctlGetDeviceName, h, fdsAfter]
    · simp [ioctlEVIOCGBIT, h, fdsAfter]
    · by_cases h5 : absBuf.length < 5 <;> simp [ioctlEVIOCGABS, h, h5, fdsAfter]
    · intro fd2 hfd2
      obtain rfl : fd = fd2 := by injection hfd2
      have h5n : ∀ hl : 5 ≤ absBuf.length, ¬ absBuf.length < 5 := fun hl => by omega
      refine ⟨?_, ?_, ?_, ?_, fun hl => ?_⟩
      · simp [ioctlGetID, h, closeCount]
      · simp [ioctlGetEvdevVersion, h, closeCount]
      · simp [ioctlGetDeviceName, h, closeCount]
      · simp [ioctlEVIOCGBIT, h, closeCount]
      · simp [ioctlEVIOCGABS, h, h5n hl, closeCount]

/-- Closed instance of `fd_never_leaked`: descriptor 3 is closed exactly
once by each call at a concrete oracle. -/
theorem fd_never_leaked_w :
    envOk.openRes devPath = some 3 ∧
    5 ≤ ([0, 0, 0, 0, 0] : List Int).length ∧
    closeCount 3 (ioctlGetID envOk devPath [0]).events = 1 ∧
    closeCount 3 (ioctlEVIOCGABS envOk devPath [0, 0, 0, 0, 0] 2).events = 1 :=
  ⟨rfl, by decide,
   ((fd_never_leaked envOk devPath [0] [] [] [0, 0, 0, 0, 0] 0 0 2).2.2.2.2.2
     3 rfl).1,
   ((fd_never_leaked envOk devPath [0] [] [] [0, 0, 0, 0, 0] 0 0 2).2.2.2.2.2
     3 rfl).2.2.2.2 (by decide)⟩

/-- C7: getDeviceName never writes past the buffer's capacity (its
maximum length): the returned buffer has exactly the caller's length,
the written region is the name truncated to that length with the tail
of the original buffer untouched, and when the device's true name is at
least as long as the capacity the result is exactly the truncated name. -/
theorem getDeviceName_bounded_write (env : Env) (path : String) (name : List Int) :
    (ioctlGetDeviceName env path name).buf.length = name.length ∧
    (∀ fd, env.openRes path = some fd → env.ioctlRet = 0 →
      (ioctlGetDeviceName env path name).buf =
        env.nameData.take name.length ++
          name.drop (min env.nameData.length name.length)) ∧
    (∀ fd, env.openRes path = some fd → env.ioctlRet = 0 →
      name.length ≤ env.nameData.length →
      (ioctlGetDeviceName env path name).buf = env.nameData.take name.length) := by
  refine ⟨?_, fun fd h h0 => ?_, fun fd h h0 hlong => ?_⟩
  · rcases h : env.openRes path with _ | fd
    · simp [ioctlGetDeviceName, h]
    · by_cases h0 : env.ioctlRet = 0 <;>
        simp [ioctlGetDeviceName, h, h0, writeInto_length]
  · simp [ioctlGetDeviceName, h, h0, writeInto, List.take_take, min_comm]
  · have key : (ioctlGetDeviceName env path name).buf =
        env.nameData.take name.length ++
          name.drop (min env.nameData.length name.length) := by
      simp [ioctlGetDeviceName, h, h0, writeInto, List.take_take, min_comm]
    rw [key, min_eq_right hlong, List.drop_length, List.append_nil]

/-- Closed instance of `getDeviceName_bounded_write`: a 3-slot buffer
receives the first 3 bytes of the 5-byte device name, nothing more. -/
theorem getDeviceName_bounded_write_w :
    envOk.openRes devPath = some 3 ∧ envOk.ioctlRet = 0 ∧
    (ioctlGetDeviceName envOk devPath [0, 0, 0]).buf.length = 3 ∧
    (ioctlGetDeviceName envOk devPath [0, 0, 0]).buf = [75, 101, 121] :=
  ⟨rfl, rfl,
   (getDeviceName_bounded_write envOk devPath [0, 0, 0]).1,
   ((getDeviceName_bounded_write envOk devPath [0, 0, 0]).2.2 3 rfl rfl
     (by decide)).trans (by decide)⟩

/-- C8 counterexample: the claim quantifies over every device path, but
on a path whose open fails getCapabilityBitmap with start = 0, stop = 0
returns the failure sentinel 0, not success. -/
theorem bitmap_empty_range_cex :
    ¬ (ioctlEVIOCGBIT envOpenFail devPath [7] 0 0).ret = 1 := by
  decide

/-- C8 amended: with the degenerate empty range start = 0, stop = 0,
getCapabilityBitmap leaves the bitmap buffer unchanged and returns
success exactly when open succeeds; when open fails it returns the
failure sentinel, still with the buffer unchanged. -/
theorem bitmap_empty_range (env : Env) (path : String) (out : List Int) :
    ((env.openRes path).isSome = true →
      (ioctlEVIOCGBIT env path out 0 0).ret = 1 ∧
      (ioctlEVIOCGBIT env path out 0 0).buf = out) ∧
    (env.openRes path = none →
      (ioctlEVIOCGBIT env path out 0 0).ret = 0 ∧
      (ioctlEVIOCGBIT env path out 0 0).buf = out) := by
  constructor
  · intro hopen
    obtain ⟨fd, hfd⟩ := Option.isSome_iff_exists.mp hopen
    by_cases h0 : env.ioctlRet = 0 <;>
      simp [ioctlEVIOCGBIT, hfd, h0, writeInto]
  · intro h
    simp [ioctlEVIOCGBIT, h]

/-- Closed instance of `bitmap_empty_range`: both the successful-open
branch and the failed-open branch, each with the buffer unchanged. -/
theorem bitmap_empty_range_w :
    (envOk.openRes devPath).isSome = true ∧
    envOpenFail.openRes devPath = none ∧
    (ioctlEVIOCGBIT envOk devPath [7] 0 0).ret = 1 ∧
    (ioctlEVIOCGBIT envOk devPath [7] 0 0).buf = [7] ∧
    (ioctlEVIOCGBIT envOpenFail devPath [7] 0 0).buf = [7] :=
  ⟨by decide, rfl,
   ((bitmap_empty_range envOk devPath [7]).1 (by decide)).1,
   ((bitmap_empty_range envOk devPath [7]).1 (by decide)).2,
   ((bitmap_empty_range envOpenFail devPath [7]).2 rfl).2⟩

/-- C9: getDeviceId, getDeviceName and getCapabilityBitmap validate
nothing about the output buffer: for every buffer, length zero included,
the returned status is decided solely by whether open succeeds, and on a
successful open the ioctl is issued — sized by the caller's capacity for
getDeviceName and by the caller's stop argument for getCapabilityBitmap
— while only getAbsAxisInfo enforces a size precondition. -/
theorem no_buffer_size_validation (env : Env) (path : String)
    (idBuf nameBuf bitBuf absBuf : List Int) (start stop axis : Int) :
    ((ioctlGetID env path idBuf).ret =
      if (env.openRes path).isSome then 1 else 0) ∧
    ((ioctlGetDeviceName env path nameBuf).ret =
      if (env.openRes path).isSome then 1 else 0) ∧
    ((ioctlEVIOCGBIT env path bitBuf start stop).ret =
      if (env.openRes path).isSome then 1 else 0) ∧
    (∀ fd, env.openRes path = some fd →
      Event.ioctlEv fd 2 8 ∈ (ioctlGetID env path idBuf).events ∧
      Event.ioctlEv fd 6 nameBuf.length ∈
        (ioctlGetDeviceName env path nameBuf).events ∧
      Event.ioctlEv fd (32 + start) stop.toNat ∈
        (ioctlEVIOCGBIT env path bitBuf start stop).events) ∧
    (absBuf.length < 5 → (ioctlEVIOCGABS env path absBuf axis).ret = 0) := by
  refine ⟨?_, ?_, ?_, fun fd hfd => ?_, fun h5 => ?_⟩
  · rcases h : env.openRes path with _ | fd <;> simp [ioctlGetID, h]
  · rcases h : env.openRes path with _ | fd <;> simp [ioctlGetDeviceName, h]
  · rcases h : env.openRes path with _ | fd <;> simp [ioctlEVIOCGBIT, h]
  · refine ⟨?_, ?_, ?_⟩ <;>
      simp [ioctlGetID, ioctlGetDeviceName, ioctlEVIOCGBIT, hfd]
  · simp [ioctlEVIOCGABS, h5]

/-- Closed instance of `no_buffer_size_validation` with empty buffers:
the status still only reflects the open, the ioctls are still issued,
and only getAbsAxisInfo rejects the short buffer. -/
theorem no_buffer_size_validation_w :
    envOk.openRes devPath = some 3 ∧
    ([] : List Int).length < 5 ∧
    (ioctlGetID envOk devPath []).ret = 1 ∧
    Event.ioctlEv 3 6 0 ∈ (ioctlGetDeviceName envOk devPath []).events ∧
    (ioctlEVIOCGABS envOk devPath [] 0).ret = 0 :=
  ⟨rfl, by decide,
   ((no_buffer_size_validation envOk devPath [] [] [] [] 0 0 0).1).trans
     (by decide),
   ((no_buffer_size_validation envOk devPath [] [] [] [] 0 0 0).2.2.2.1
     3 rfl).2.1,
   (no_buffer_size_validation envOk devPath [] [] [] [] 0 0 0).2.2.2.2
     (by decide)⟩

/-- C10: the failure sentinel of getProtocolVersion is ambiguous — a
device whose open and ioctl both succeed but whose kernel-reported
version is 0 returns exactly the same value 0 as a call whose open
fails. -/
theorem version_zero_ambiguous (env envF : Env) (path : String) (fd : Nat)
    (h1 : env.openRes path = some fd) (h2 : env.ioctlRet = 0)
    (h3 : env.versionVal = 0) (h4 : envF.openRes path = none) :
    (ioctlGetEvdevVersion env path).ret = 0 ∧
    (ioctlGetEvdevVersion env path).ret = (ioctlGetEvdevVersion envF path).ret := by
  constructor
  · simp [ioctlGetEvdevVersion, h1, h2, h3]
  · simp [ioctlGetEvdevVersion, h1, h2, h3, h4]

/-- Closed instance of `version_zero_ambiguous`: a genuine version-0
device and a failed open produce byte-for-byte the same result. -/
theorem version_zero_ambiguous_w :
    envVer0.openRes devPath = some 3 ∧ envVer0.ioctlRet = 0 ∧
    envVer0.versionVal = 0 ∧ envOpenFail.openRes devPath = none ∧
    (ioctlGetEvdevVersion envVer0 devPath).ret = 0 ∧
    (ioctlGetEvdevVersion envVer0 devPath).ret =
      (ioctlGetEvdevVersion envOpenFail devPath).ret :=
  ⟨rfl, rfl, rfl, rfl,
   (version_zero_ambiguous envVer0 envOpenFail devPath 3 rfl rfl rfl rfl).1,
   (version_zero_ambiguous envVer0 envOpenFail devPath 3 rfl rfl rfl rfl).2⟩

end Evdev
